import Mathlib

/-!
Verification of the core of the weather-monitoring service
(fetch → store → evaluate pipeline, retention sweep, daily aggregation,
threshold configuration), shallowly embedded from the Python sources:

  * `weather_service/utils.py`    — `check_data_against_alerts`, `Thresholds`,
                                    `insert_fetched_data`, the default `thresholds`
  * `weather_service/db_utils.py` — `cleanup_old_realtime_weather`,
                                    `insert_realtime_weather`, `aggregate_daily_weather`
  * `weather_service/main.py`     — `fetch_and_insert_data`

Numeric weather values (Python floats / SQL `Numeric`) are modelled as `ℚ`;
timestamps (`datetime`, second precision in this code base, as `dt` is built
with `datetime.fromtimestamp` from an integer Unix time) are modelled as `Int`
seconds since the epoch.  The database session is modelled as explicit list
state; each table is a list of rows in insertion order.
-/

/-- One normalized weather observation (the `weather_data` dict produced by
`fetch_weather_data`, which is also the shape of a `realtime_weather` row). -/
structure Reading where
  dt : Int
  main_condition : String
  temp : ℚ
  feels_like : ℚ
  pressure : ℚ
  humidity : ℚ
  rain : ℚ
  clouds : ℚ
  city : String
  deriving DecidableEq, Repr

/-- A row of the `alert_events` table as written by `insert_alert_event`
(`event_id` is a database-generated opaque token and carries no information,
so it is omitted from the embedding). -/
structure AlertEvent where
  dt : Int
  city : String
  trigger : String
  reason : String
  deriving DecidableEq, Repr

/-- The dict returned by `Thresholds.get_thresholds` and consumed by
`check_data_against_alerts`: per metric a `[min, max]` pair. -/
structure ThresholdsDict where
  temp : ℚ × ℚ
  feels_like : ℚ × ℚ
  pressure : ℚ × ℚ
  humidity : ℚ × ℚ
  rain : ℚ × ℚ
  clouds : ℚ × ℚ
  deriving DecidableEq, Repr

/-- The reason string of an alert, following the f-strings in
`check_data_against_alerts`, e.g.
`f'Found temp: {weather_data["temp"]} but threshold is {thresholds["temp"]}'`. -/
def alertReason (label : String) (value : ℚ) (range : ℚ × ℚ) : String :=
  "Found " ++ label ++ ": " ++ toString value ++ " but threshold is [" ++
    toString range.1 ++ ", " ++ toString range.2 ++ "]"

/-- Embedding of `check_data_against_alerts` (utils.py lines 231–267): six independent
`if` statements, one per metric, each inserting one alert event when the
metric's value lies strictly outside its `[min, max]` range.  The embedding
returns the list of alert events inserted, in insertion order. -/
def check_data_against_alerts (weather_data : Reading) (thresholds : ThresholdsDict) :
    List AlertEvent :=
  (if weather_data.temp < thresholds.temp.1 ∨ weather_data.temp > thresholds.temp.2 then
    [⟨weather_data.dt, weather_data.city, "Temperature",
      alertReason "temp" weather_data.temp thresholds.temp⟩] else []) ++
  (if weather_data.feels_like < thresholds.feels_like.1 ∨
      weather_data.feels_like > thresholds.feels_like.2 then
    [⟨weather_data.dt, weather_data.city, "Feels Like",
      alertReason "feels like" weather_data.feels_like thresholds.feels_like⟩] else []) ++
  (if weather_data.pressure < thresholds.pressure.1 ∨
      weather_data.pressure > thresholds.pressure.2 then
    [⟨weather_data.dt, weather_data.city, "Pressure",
      alertReason "pressure" weather_data.pressure thresholds.pressure⟩] else []) ++
  (if weather_data.humidity < thresholds.humidity.1 ∨
      weather_data.humidity > thresholds.humidity.2 then
    [⟨weather_data.dt, weather_data.city, "Humidity",
      alertReason "humidity" weather_data.humidity thresholds.humidity⟩] else []) ++
  (if weather_data.rain < thresholds.rain.1 ∨ weather_data.rain > thresholds.rain.2 then
    [⟨weather_data.dt, weather_data.city, "Rain",
      alertReason "rain" weather_data.rain thresholds.rain⟩] else []) ++
  (if weather_data.clouds < thresholds.clouds.1 ∨ weather_data.clouds > thresholds.clouds.2 then
    [⟨weather_data.dt, weather_data.city, "Clouds",
      alertReason "clouds" weather_data.clouds thresholds.clouds⟩] else [])

/-- The six monitored metrics, used to state per-metric properties. -/
inductive Metric where
  | temp | feels_like | pressure | humidity | rain | clouds
  deriving DecidableEq, Repr

/-- The value a metric reads off a `Reading`. -/
def Metric.value : Metric → Reading → ℚ
  | .temp, r => r.temp
  | .feels_like, r => r.feels_like
  | .pressure, r => r.pressure
  | .humidity, r => r.humidity
  | .rain, r => r.rain
  | .clouds, r => r.clouds

/-- The `[min, max]` range a metric reads off the thresholds dict. -/
def Metric.range : Metric → ThresholdsDict → ℚ × ℚ
  | .temp, t => t.temp
  | .feels_like, t => t.feels_like
  | .pressure, t => t.pressure
  | .humidity, t => t.humidity
  | .rain, t => t.rain
  | .clouds, t => t.clouds

/-- The `trigger` string the evaluator writes for each metric. -/
def Metric.trigger : Metric → String
  | .temp => "Temperature"
  | .feels_like => "Feels Like"
  | .pressure => "Pressure"
  | .humidity => "Humidity"
  | .rain => "Rain"
  | .clouds => "Clouds"

/-- The label used inside the reason string for each metric. -/
def Metric.label : Metric → String
  | .temp => "temp"
  | .feels_like => "feels like"
  | .pressure => "pressure"
  | .humidity => "humidity"
  | .rain => "rain"
  | .clouds => "clouds"

/-- Spec-side violation predicate: the metric's value lies strictly below its
min or strictly above its max. -/
def metricViolates (m : Metric) (r : Reading) (t : ThresholdsDict) : Prop :=
  m.value r < (m.range t).1 ∨ m.value r > (m.range t).2

instance (m : Metric) (r : Reading) (t : ThresholdsDict) :
    Decidable (metricViolates m r t) := by
  unfold metricViolates; infer_instance

/-- The alert event the evaluator emits for metric `m` when it is violated. -/
def metricEvent (m : Metric) (r : Reading) (t : ThresholdsDict) : AlertEvent :=
  ⟨r.dt, r.city, m.trigger, alertReason m.label (m.value r) (m.range t)⟩

/-- Number of alert events carrying a given trigger string. -/
def countTrigger (evs : List AlertEvent) (trig : String) : Nat :=
  evs.countP (fun e => e.trigger = trig)

/-- Embedding of the `Thresholds` class (utils.py lines 269–314): a mutable object with six
`[min, max]` fields; modelled as an immutable record threaded explicitly. -/
structure Thresholds where
  temp : ℚ × ℚ
  feels_like : ℚ × ℚ
  pressure : ℚ × ℚ
  humidity : ℚ × ℚ
  rain : ℚ × ℚ
  clouds : ℚ × ℚ
  deriving DecidableEq, Repr

/-- Embedding of `Thresholds.get_thresholds`: returns the full dict of six ranges. -/
def Thresholds.get_thresholds (s : Thresholds) : ThresholdsDict :=
  ⟨s.temp, s.feels_like, s.pressure, s.humidity, s.rain, s.clouds⟩

/-- Embedding of `Thresholds.update_thresholds`: replaces all six ranges. -/
def Thresholds.update_thresholds (_s : Thresholds)
    (temp feels_like pressure humidity rain clouds : ℚ × ℚ) : Thresholds :=
  ⟨temp, feels_like, pressure, humidity, rain, clouds⟩

/-- The module-level default `thresholds` object (utils.py line 316). -/
def thresholds : Thresholds :=
  ⟨(0, 100), (0, 100), (0, 1000), (0, 100), (0, 100), (0, 100)⟩

/-! ## Reading Store: retention sweep and append (db_utils.py) -/

/-- Seconds in 24 hours, the retention window of `cleanup_old_realtime_weather`. -/
def retentionSeconds : Int := 86400

/-- Embedding of `cleanup_old_realtime_weather` (db_utils.py lines 26–32): delete every
`realtime_weather` row whose `dt` is strictly older than `now - 24h`,
regardless of city.  The embedding keeps exactly the non-deleted rows. -/
def cleanup_old_realtime_weather (now : Int) (store : List Reading) : List Reading :=
  store.filter (fun r => ¬ r.dt < now - retentionSeconds)

/-- Embedding of `insert_realtime_weather` (db_utils.py lines 34–64): first runs the
retention sweep, then adds the new row and commits. -/
def insert_realtime_weather (now : Int) (row : Reading) (store : List Reading) :
    List Reading :=
  cleanup_old_realtime_weather now store ++ [row]

/-- The two database-visible steps of one `insert_realtime_weather` call. -/
inductive StoreOp where
  | sweep | write
  deriving DecidableEq, Repr

/-- The order in which one `insert_realtime_weather` call performs its two
steps: the source calls `cleanup_old_realtime_weather()` first (line 50) and
only then `session.add(new_data); session.commit()` (lines 63–64). -/
def insert_realtime_weather_trace : List StoreOp :=
  [StoreOp.sweep, StoreOp.write]

/-! ## Aggregator (db_utils.py `aggregate_daily_weather`) -/

/-- Seconds in one calendar day. -/
def daySeconds : Int := 86400

/-- The calendar date of a timestamp (`func.date(dt)` / `datetime.date.today()`),
as a day index: floor division of the Unix time by the day length
(`/` on `Int` with a positive divisor is floor division). -/
def dateOf (t : Int) : Int := t / daySeconds

/-- Meaning of `datetime.combine(today, time.min)`: midnight of the timestamp's day. -/
def startOfDay (now : Int) : Int := dateOf now * daySeconds

/-- Meaning of `datetime.combine(today, time.max)`: the last instant of the day; at the
second precision of this code base's timestamps, 23:59:59. -/
def endOfDay (now : Int) : Int := dateOf now * daySeconds + (daySeconds - 1)

/-- The filter of the aggregation query:
`RealtimeWeather.dt >= start_time, RealtimeWeather.dt <= end_time`. -/
def inTodayWindow (now dt : Int) : Bool :=
  decide (startOfDay now ≤ dt) && decide (dt ≤ endOfDay now)

/-- A row of the `daily_weather` table (primary key `(date, city)`). -/
structure DailyWeather where
  date : Int
  city : String
  avg_temp : ℚ
  max_temp : ℚ
  min_temp : ℚ
  dom_condition : String
  deriving DecidableEq, Repr

/-- SQL `MAX` over a (nonempty) group, for any linearly ordered column type. -/
def sqlMax {α : Type} [LinearOrder α] [Inhabited α] : List α → α
  | [] => default
  | x :: xs => xs.foldl max x

/-- SQL `MIN` over a (nonempty) group. -/
def sqlMin {α : Type} [LinearOrder α] [Inhabited α] : List α → α
  | [] => default
  | x :: xs => xs.foldl min x

/-- SQL `AVG` over a (nonempty) group of numeric values. -/
def sqlAvg (l : List ℚ) : ℚ := l.sum / l.length

/-- Embedding of `aggregate_daily_weather` (db_utils.py lines 106–140), query part: filter
today's rows, group by `(city, date(dt))`, and per group compute
`avg(temp)`, `max(temp)`, `min(temp)` and `max(main_condition)` (the
lexicographically greatest condition string). -/
def aggregate_daily_weather (now : Int) (store : List Reading) : List DailyWeather :=
  let filtered := store.filter (fun r => inTodayWindow now r.dt)
  let keys := (filtered.map (fun r => (r.city, dateOf r.dt))).dedup
  keys.map (fun k =>
    let rows := filtered.filter (fun r => r.city = k.1 ∧ dateOf r.dt = k.2)
    { date := k.2
      city := k.1
      avg_temp := sqlAvg (rows.map Reading.temp)
      max_temp := sqlMax (rows.map Reading.temp)
      min_temp := sqlMin (rows.map Reading.temp)
      dom_condition := sqlMax (rows.map Reading.main_condition) })

/-- Embedding of `session.merge(daily_weather)` for a table whose primary key is
`(date, city)`: replace every existing row with that key, or append the row
when the key is absent. -/
def mergeDaily (store : List DailyWeather) (row : DailyWeather) : List DailyWeather :=
  if store.any (fun s => s.date = row.date ∧ s.city = row.city) then
    store.map (fun s => if s.date = row.date ∧ s.city = row.city then row else s)
  else
    store ++ [row]

/-- The write-back loop of `aggregate_daily_weather` (lines 129–140): merge
each computed summary row into the `daily_weather` table. -/
def aggregationRun (now : Int) (readings : List Reading) (daily : List DailyWeather) :
    List DailyWeather :=
  (aggregate_daily_weather now readings).foldl mergeDaily daily

/-! ## Fetch cycle (main.py `fetch_and_insert_data`, utils.py `insert_fetched_data`) -/

/-- The database- and log-visible state threaded through one fetch cycle. -/
structure WorldState where
  readingStore : List Reading
  alertStore : List AlertEvent
  log : List String
  deriving DecidableEq, Repr

deriving instance DecidableEq for Except

/-- The outcome of the external calls for one city in one cycle: either the
fetch raised (geocoding error, network error, malformed payload), carried as
an error message, or it produced a normalized `Reading`; independently, the
persistence write for this city may raise (`PersistenceError`). -/
structure CityEnv where
  fetchResult : Except String Reading
  persistFails : Bool
  deriving DecidableEq, Repr

/-- Embedding of `insert_fetched_data` (utils.py lines 152–175): calls
`insert_realtime_weather` inside `try/except`; on failure it only prints
`Failed to insert data for {city}: ...` and returns normally — the exception
is swallowed, not re-raised. -/
def insert_fetched_data (now : Int) (persistFails : Bool) (weather_data : Reading)
    (w : WorldState) : WorldState :=
  if persistFails then
    { w with log := w.log ++ ["Failed to insert data for " ++ weather_data.city] }
  else
    { w with readingStore := insert_realtime_weather now weather_data w.readingStore }

/-- The body of the per-city loop of `fetch_and_insert_data` (main.py lines
60–67): fetch, insert (which swallows persistence failures), evaluate
thresholds (persisting each emitted alert), log success; any exception raised
inside the body — in particular a fetch failure — is caught by the loop's
`except` and logged, so the body always returns normally. -/
def process_city (now : Int) (th : ThresholdsDict) (w : WorldState) (c : CityEnv) :
    WorldState :=
  match c.fetchResult with
  | Except.error e =>
      { w with log := w.log ++ ["Failed to insert data: " ++ e] }
  | Except.ok weather_data =>
      let w1 := insert_fetched_data now c.persistFails weather_data w
      let w2 := { w1 with
        alertStore := w1.alertStore ++ check_data_against_alerts weather_data th }
      { w2 with log := w2.log ++ ["Data fetched and inserted for " ++ weather_data.city] }

/-- Embedding of `fetch_and_insert_data` (main.py lines 55–67): run the per-city pipeline
for every configured city in order; a total function — no exception escapes
the cycle. -/
def fetch_and_insert_data (now : Int) (th : ThresholdsDict) (cities : List CityEnv)
    (w : WorldState) : WorldState :=
  cities.foldl (process_city now th) w

/-! ## Auxiliary definitions used by the statements and proofs -/

/-- The Readings for one city whose timestamp falls in the current date's
window — the spec-side description of the data one DailySummary reflects. -/
def readingsForCityToday (now : Int) (city : String) (store : List Reading) : List Reading :=
  store.filter (fun r => inTodayWindow now r.dt && decide (r.city = city))

/-- Invariant used for upsert reasoning: the store has a row with `row`'s
`(date, city)` key, and every row with that key equals `row`. -/
def GoodFor (store : List DailyWeather) (row : DailyWeather) : Prop :=
  (∃ x ∈ store, x.date = row.date ∧ x.city = row.city) ∧
  (∀ x ∈ store, x.date = row.date ∧ x.city = row.city → x = row)

/-- Two daily rows have different `(date, city)` keys. -/
def distinctDailyKeys (a b : DailyWeather) : Prop :=
  ¬(a.date = b.date ∧ a.city = b.city)

/-! ## Helper lemmas: the threshold evaluator -/

/-- The six sequential `if` blocks of the evaluator, written as one
concatenation, indexed by `Metric`. -/
lemma check_decomp (r : Reading) (t : ThresholdsDict) :
    check_data_against_alerts r t =
      (if metricViolates .temp r t then [metricEvent .temp r t] else []) ++
      (if metricViolates .feels_like r t then [metricEvent .feels_like r t] else []) ++
      (if metricViolates .pressure r t then [metricEvent .pressure r t] else []) ++
      (if metricViolates .humidity r t then [metricEvent .humidity r t] else []) ++
      (if metricViolates .rain r t then [metricEvent .rain r t] else []) ++
      (if metricViolates .clouds r t then [metricEvent .clouds r t] else []) := rfl

lemma countP_ite_singleton (c : Prop) [Decidable c] (a : AlertEvent) (p : AlertEvent → Bool) :
    (if c then [a] else []).countP p = if c then (if p a then 1 else 0) else 0 := by
  split_ifs with h h2 <;> simp_all [List.countP_cons]

/-- Per-metric alert count of one evaluation: one when the metric is violated,
zero otherwise — regardless of the other five metrics. -/
lemma countTrigger_check (r : Reading) (t : ThresholdsDict) (m : Metric) :
    countTrigger (check_data_against_alerts r t) m.trigger
      = if metricViolates m r t then 1 else 0 := by
  rw [countTrigger, check_decomp r t]
  simp only [List.countP_append, countP_ite_singleton]
  cases m <;> simp [metricEvent, Metric.trigger]

lemma mem_ite_singleton (c : Prop) [Decidable c] (a e : AlertEvent) :
    e ∈ (if c then [a] else []) ↔ c ∧ e = a := by
  split_ifs with h <;> simp [h]

/-- An event is emitted by the evaluator exactly when it is the event of some
violated metric. -/
lemma mem_check (r : Reading) (t : ThresholdsDict) (e : AlertEvent) :
    e ∈ check_data_against_alerts r t ↔
      ∃ m : Metric, metricViolates m r t ∧ e = metricEvent m r t := by
  rw [check_decomp]
  simp only [List.mem_append, mem_ite_singleton]
  constructor
  · rintro (((((h | h) | h) | h) | h) | h)
    all_goals exact ⟨_, h⟩
  · rintro ⟨m, hv, rfl⟩
    cases m <;> tauto

lemma length_check_le (r : Reading) (t : ThresholdsDict) :
    (check_data_against_alerts r t).length ≤ 6 := by
  rw [check_decomp]
  simp only [List.length_append]
  split_ifs <;> simp

/-! ## Helper lemmas: reading store -/

/-- Membership in the store after one append call: an old row survives
exactly when its timestamp is at or after the 24h cutoff, and the appended
row is always present. -/
lemma mem_insert_realtime_weather (now : Int) (row : Reading) (store : List Reading)
    (r : Reading) :
    r ∈ insert_realtime_weather now row store ↔
      (r ∈ store ∧ now - retentionSeconds ≤ r.dt) ∨ r = row := by
  simp only [insert_realtime_weather, cleanup_old_realtime_weather, List.mem_append,
    List.mem_filter, List.mem_singleton, decide_not, Bool.not_eq_true', decide_eq_false_iff_not,
    not_lt, decide_eq_true_eq]

/-! ## Helper lemmas: daily upsert -/

lemma goodFor_merge_self (store : List DailyWeather) (row : DailyWeather) :
    GoodFor (mergeDaily store row) row := by
  unfold mergeDaily
  split_ifs with h
  · constructor
    · rcases List.any_eq_true.mp h with ⟨x, hx, hk⟩
      refine ⟨row, List.mem_map.mpr ⟨x, hx, ?_⟩, rfl, rfl⟩
      rw [if_pos (by exact_mod_cast of_decide_eq_true hk)]
    · intro x hx hxk
      rcases List.mem_map.mp hx with ⟨y, _, hy⟩
      by_cases hk : y.date = row.date ∧ y.city = row.city
      · rw [if_pos hk] at hy; exact hy.symm
      · rw [if_neg hk] at hy
        subst hy
        exact absurd hxk hk
  · constructor
    · exact ⟨row, by simp, rfl, rfl⟩
    · intro x hx hk
      rcases List.mem_append.mp hx with hx | hx
      · exact absurd (List.any_eq_true.mpr ⟨x, hx, decide_eq_true hk⟩) h
      · simpa using hx

lemma goodFor_merge_other (store : List DailyWeather) (row other : DailyWeather)
    (hne : ¬(other.date = row.date ∧ other.city = row.city))
    (hg : GoodFor store row) : GoodFor (mergeDaily store other) row := by
  obtain ⟨⟨x, hx, hxk⟩, hall⟩ := hg
  unfold mergeDaily
  split_ifs with h
  · constructor
    · refine ⟨x, List.mem_map.mpr ⟨x, hx, ?_⟩, hxk⟩
      rw [if_neg]
      intro hk
      exact hne ⟨hk.1.symm ▸ hxk.1, hk.2.symm ▸ hxk.2⟩
    · intro z hz hzk
      rcases List.mem_map.mp hz with ⟨y, hy_mem, hy⟩
      by_cases hk : y.date = other.date ∧ y.city = other.city
      · rw [if_pos hk] at hy
        subst hy
        exact absurd hzk hne
      · rw [if_neg hk] at hy
        subst hy
        exact hall _ hy_mem hzk
  · constructor
    · exact ⟨x, List.mem_append.mpr (Or.inl hx), hxk⟩
    · intro z hz hzk
      rcases List.mem_append.mp hz with hz | hz
      · exact hall _ hz hzk
      · rw [List.mem_singleton] at hz
        subst hz
        exact absurd hzk hne

/-- Merging a row whose key already maps everywhere to that same row is a
no-op: this is the heart of upsert idempotence. -/
lemma mergeDaily_absorb (store : List DailyWeather) (row : DailyWeather)
    (hg : GoodFor store row) : mergeDaily store row = store := by
  obtain ⟨⟨x, hx, hxk⟩, hall⟩ := hg
  unfold mergeDaily
  rw [if_pos (List.any_eq_true.mpr ⟨x, hx, decide_eq_true hxk⟩)]
  conv_rhs => rw [← List.map_id store]
  apply List.map_congr_left
  intro y hy
  by_cases hk : y.date = row.date ∧ y.city = row.city
  · rw [if_pos hk]
    exact (hall _ hy hk).symm
  · rw [if_neg hk]
    rfl

lemma goodFor_foldl_merge_of_not_mem (l : List DailyWeather) (row : DailyWeather)
    (hl : ∀ z ∈ l, distinctDailyKeys z row) :
    ∀ store : List DailyWeather, GoodFor store row →
      GoodFor (l.foldl mergeDaily store) row := by
  induction l with
  | nil => intro store hg; exact hg
  | cons a l ih =>
      intro store hg
      have ha := hl a (List.mem_cons_self a l)
      exact ih (fun z hz => hl z (List.mem_cons_of_mem a hz)) _
        (goodFor_merge_other store row a ha hg)

lemma goodFor_foldl_merge_of_mem (l : List DailyWeather) (row : DailyWeather)
    (hrow : row ∈ l) (hdist : l.Pairwise distinctDailyKeys) :
    ∀ store : List DailyWeather, GoodFor (l.foldl mergeDaily store) row := by
  induction l with
  | nil => cases hrow
  | cons a l ih =>
      intro store
      rcases List.mem_cons.mp hrow with rfl | hrow
      · have hl : ∀ z ∈ l, distinctDailyKeys z row := by
          intro z hz hk
          exact (List.pairwise_cons.mp hdist).1 z hz ⟨hk.1.symm, hk.2.symm⟩
        exact goodFor_foldl_merge_of_not_mem l row hl _ (goodFor_merge_self store row)
      · exact ih hrow (List.pairwise_cons.mp hdist).2 _

lemma foldl_merge_noop (l : List DailyWeather) :
    ∀ store : List DailyWeather, (∀ row ∈ l, GoodFor store row) →
      l.foldl mergeDaily store = store := by
  induction l with
  | nil => intro store _; rfl
  | cons a l ih =>
      intro store hall
      have ha : mergeDaily store a = store :=
        mergeDaily_absorb store a (hall a (List.mem_cons_self a l))
      rw [List.foldl_cons, ha]
      exact ih store (fun row hr => hall row (List.mem_cons_of_mem a hr))

lemma foldl_merge_idem (l : List DailyWeather) (hdist : l.Pairwise distinctDailyKeys)
    (store : List DailyWeather) :
    l.foldl mergeDaily (l.foldl mergeDaily store) = l.foldl mergeDaily store :=
  foldl_merge_noop l _ (fun row hr => goodFor_foldl_merge_of_mem l row hr hdist store)

/-- The summary rows produced by one aggregation query have pairwise distinct
`(date, city)` keys, because the query groups by exactly that key. -/
lemma aggregate_pairwise (now : Int) (store : List Reading) :
    (aggregate_daily_weather now store).Pairwise distinctDailyKeys := by
  unfold aggregate_daily_weather
  rw [List.pairwise_map]
  apply List.Pairwise.imp ?_ (List.nodup_dedup _)
  intro k k' hne hk
  apply hne
  have h1 : k.2 = k'.2 := hk.1
  have h2 : k.1 = k'.1 := hk.2
  exact Prod.ext h2 h1

/-! ## Helper lemmas: aggregation query -/

/-- A timestamp inside today's `[00:00:00, 23:59:59]` window has today's
calendar date. -/
lemma dateOf_eq_of_window (now dt : Int) (h : inTodayWindow now dt = true) :
    dateOf dt = dateOf now := by
  unfold inTodayWindow startOfDay endOfDay dateOf daySeconds at *
  rw [Bool.and_eq_true, decide_eq_true_eq, decide_eq_true_eq] at h
  omega

lemma foldl_max_mem {α : Type} [LinearOrder α] (xs : List α) :
    ∀ a : α, xs.foldl max a = a ∨ xs.foldl max a ∈ xs := by
  induction xs with
  | nil => intro a; exact Or.inl rfl
  | cons x xs ih =>
      intro a
      rcases ih (max a x) with h | h
      · rcases max_choice a x with hm | hm
        · exact Or.inl (by rw [List.foldl_cons, h, hm])
        · exact Or.inr (by rw [List.foldl_cons, h, hm]; exact List.mem_cons_self x xs)
      · exact Or.inr (List.mem_cons_of_mem x h)

lemma le_foldl_max {α : Type} [LinearOrder α] (xs : List α) :
    ∀ a : α, a ≤ xs.foldl max a ∧ ∀ x ∈ xs, x ≤ xs.foldl max a := by
  induction xs with
  | nil => intro a; exact ⟨le_refl a, by intro x hx; cases hx⟩
  | cons y xs ih =>
      intro a
      obtain ⟨h1, h2⟩ := ih (max a y)
      refine ⟨le_trans (le_max_left a y) h1, ?_⟩
      intro x hx
      rcases List.mem_cons.mp hx with rfl | hx
      · exact le_trans (le_max_right a x) h1
      · exact h2 x hx

/-- SQL `MAX` of a nonempty group is an element of the group and an upper
bound of it. -/
lemma sqlMax_spec {α : Type} [LinearOrder α] [Inhabited α] (l : List α) (h : l ≠ []) :
    sqlMax l ∈ l ∧ ∀ x ∈ l, x ≤ sqlMax l := by
  match l with
  | [] => exact absurd rfl h
  | x :: xs =>
      show xs.foldl max x ∈ x :: xs ∧ ∀ y ∈ x :: xs, y ≤ xs.foldl max x
      constructor
      · rcases foldl_max_mem xs x with hm | hm
        · rw [hm]; exact List.mem_cons_self x xs
        · exact List.mem_cons_of_mem x hm
      · intro y hy
        rcases List.mem_cons.mp hy with rfl | hy
        · exact (le_foldl_max xs y).1
        · exact (le_foldl_max xs x).2 y hy

lemma foldl_min_mem {α : Type} [LinearOrder α] (xs : List α) :
    ∀ a : α, xs.foldl min a = a ∨ xs.foldl min a ∈ xs := by
  induction xs with
  | nil => intro a; exact Or.inl rfl
  | cons x xs ih =>
      intro a
      rcases ih (min a x) with h | h
      · rcases min_choice a x with hm | hm
        · exact Or.inl (by rw [List.foldl_cons, h, hm])
        · exact Or.inr (by rw [List.foldl_cons, h, hm]; exact List.mem_cons_self x xs)
      · exact Or.inr (List.mem_cons_of_mem x h)

lemma foldl_min_le {α : Type} [LinearOrder α] (xs : List α) :
    ∀ a : α, xs.foldl min a ≤ a ∧ ∀ x ∈ xs, xs.foldl min a ≤ x := by
  induction xs with
  | nil => intro a; exact ⟨le_refl a, by intro x hx; cases hx⟩
  | cons y xs ih =>
      intro a
      obtain ⟨h1, h2⟩ := ih (min a y)
      refine ⟨le_trans h1 (min_le_left a y), ?_⟩
      intro x hx
      rcases List.mem_cons.mp hx with rfl | hx
      · exact le_trans h1 (min_le_right a x)
      · exact h2 x hx

/-- SQL `MIN` of a nonempty group is an element of the group and a lower
bound of it. -/
lemma sqlMin_spec {α : Type} [LinearOrder α] [Inhabited α] (l : List α) (h : l ≠ []) :
    sqlMin l ∈ l ∧ ∀ x ∈ l, sqlMin l ≤ x := by
  match l with
  | [] => exact absurd rfl h
  | x :: xs =>
      show xs.foldl min x ∈ x :: xs ∧ ∀ y ∈ x :: xs, xs.foldl min x ≤ y
      constructor
      · rcases foldl_min_mem xs x with hm | hm
        · rw [hm]; exact List.mem_cons_self x xs
        · exact List.mem_cons_of_mem x hm
      · intro y hy
        rcases List.mem_cons.mp hy with rfl | hy
        · exact (foldl_min_le xs y).1
        · exact (foldl_min_le xs x).2 y hy

/-! ## Helper lemmas: fetch cycle -/

lemma process_city_alert_mono (now : Int) (th : ThresholdsDict) (w : WorldState)
    (c : CityEnv) (e : AlertEvent) (he : e ∈ w.alertStore) :
    e ∈ (process_city now th w c).alertStore := by
  unfold process_city
  cases c.fetchResult with
  | error msg => exact he
  | ok wd =>
      unfold insert_fetched_data
      split_ifs <;> exact List.mem_append.mpr (Or.inl he)

lemma process_city_reading_mono (now : Int) (th : ThresholdsDict) (w : WorldState)
    (c : CityEnv) (r : Reading) (hr : r ∈ w.readingStore)
    (hdt : now - retentionSeconds ≤ r.dt) :
    r ∈ (process_city now th w c).readingStore := by
  unfold process_city
  cases c.fetchResult with
  | error msg => exact hr
  | ok wd =>
      unfold insert_fetched_data
      split_ifs with hp
      · exact hr
      · exact (mem_insert_realtime_weather now wd w.readingStore r).mpr (Or.inl ⟨hr, hdt⟩)

/-- A city whose fetch succeeded and whose write did not fail stores its
reading and persists every alert its evaluation emitted. -/
lemma process_city_own (now : Int) (th : ThresholdsDict) (w : WorldState)
    (c : CityEnv) (r : Reading) (hfr : c.fetchResult = Except.ok r)
    (hp : c.persistFails = false) :
    r ∈ (process_city now th w c).readingStore ∧
    ∀ e ∈ check_data_against_alerts r th, e ∈ (process_city now th w c).alertStore := by
  unfold process_city
  rw [hfr]
  unfold insert_fetched_data
  rw [hp]
  simp only [Bool.false_eq_true, if_false]
  constructor
  · exact (mem_insert_realtime_weather now r w.readingStore r).mpr (Or.inr rfl)
  · intro e he
    exact List.mem_append.mpr (Or.inr he)

lemma foldl_alert_mono (now : Int) (th : ThresholdsDict) (cities : List CityEnv) :
    ∀ (w : WorldState) (e : AlertEvent), e ∈ w.alertStore →
      e ∈ (cities.foldl (process_city now th) w).alertStore := by
  induction cities with
  | nil => intro w e he; exact he
  | cons c cities ih =>
      intro w e he
      exact ih _ e (process_city_alert_mono now th w c e he)

lemma foldl_reading_mono (now : Int) (th : ThresholdsDict) (cities : List CityEnv) :
    ∀ (w : WorldState) (r : Reading), r ∈ w.readingStore →
      now - retentionSeconds ≤ r.dt →
      r ∈ (cities.foldl (process_city now th) w).readingStore := by
  induction cities with
  | nil => intro w r hr _; exact hr
  | cons c cities ih =>
      intro w r hr hdt
      exact ih _ r (process_city_reading_mono now th w c r hr hdt) hdt

lemma foldl_process_own (now : Int) (th : ThresholdsDict) (cities : List CityEnv) :
    ∀ (w : WorldState) (c : CityEnv), c ∈ cities → ∀ r : Reading,
      c.fetchResult = Except.ok r → c.persistFails = false →
      now - retentionSeconds ≤ r.dt →
      r ∈ (cities.foldl (process_city now th) w).readingStore ∧
      ∀ e ∈ check_data_against_alerts r th,
        e ∈ (cities.foldl (process_city now th) w).alertStore := by
  induction cities with
  | nil => intro w c hc; cases hc
  | cons a cities ih =>
      intro w c hc r hfr hp hdt
      rcases List.mem_cons.mp hc with rfl | hc
      · obtain ⟨h1, h2⟩ := process_city_own now th w c r hfr hp
        rw [List.foldl_cons]
        exact ⟨foldl_reading_mono now th cities _ r h1 hdt,
          fun e he => foldl_alert_mono now th cities _ e (h2 e he)⟩
      · rw [List.foldl_cons]
        exact ih _ c hc r hfr hp hdt

/-! ## Claim theorems -/

/-- C1 (counterexample): the claim quantifies over every `ThresholdConfig`,
but with the reachable degenerate range `temp = [10, 5]` (min above max) a
temperature of exactly the configured min, 10, raises one temperature alert
(because `10 > 5` fires the `value > max` branch), so "value equals min
implies no alert" is false as stated. -/
theorem c1_boundary_counterexample :
    (⟨(10, 5), (0, 100), (0, 2000), (0, 100), (0, 100), (0, 100)⟩ :
        ThresholdsDict).temp.1 = 10 ∧
    (⟨0, "Clear", 10, 10, 500, 50, 0, 20, "Delhi"⟩ : Reading).temp = 10 ∧
    countTrigger
      (check_data_against_alerts ⟨0, "Clear", 10, 10, 500, 50, 0, 20, "Delhi"⟩
        ⟨(10, 5), (0, 100), (0, 2000), (0, 100), (0, 100), (0, 100)⟩)
      (Metric.trigger Metric.temp) = 1 := by
  exact ⟨rfl, rfl, by decide⟩

/-- C1 (amended): for every Reading and every ThresholdConfig whose range for
the metric is well formed (min ≤ max), a metric value exactly at the
configured min or max raises no alert for that metric (the range is
inclusive), and a value one unit below min or one unit above max raises
exactly one alert for that metric. -/
theorem c1_boundary_inclusive_of_wellformed (r : Reading) (t : ThresholdsDict)
    (m : Metric) (hwf : (m.range t).1 ≤ (m.range t).2) :
    ((m.value r = (m.range t).1 ∨ m.value r = (m.range t).2) →
      countTrigger (check_data_against_alerts r t) m.trigger = 0) ∧
    ((m.value r = (m.range t).1 - 1 ∨ m.value r = (m.range t).2 + 1) →
      countTrigger (check_data_against_alerts r t) m.trigger = 1) := by
  rw [countTrigger_check r t m]
  constructor
  · rintro (hb | hb) <;>
    · rw [if_neg]
      unfold metricViolates
      push_neg
      constructor <;> linarith
  · rintro (hb | hb)
    · rw [if_pos (show metricViolates m r t by
        unfold metricViolates; exact Or.inl (by linarith))]
    · rw [if_pos (show metricViolates m r t by
        unfold metricViolates; exact Or.inr (by linarith))]

/-- C1 (witness): with the well-formed default-style range `[0, 100]`, a
temperature of exactly 0 (the min) raises no temperature alert and a
temperature of 101 (one unit above the max) raises exactly one. -/
theorem c1_boundary_inclusive_witness :
    ((0 : ℚ), (100 : ℚ)).1 ≤ ((0 : ℚ), (100 : ℚ)).2 ∧
    countTrigger
      (check_data_against_alerts ⟨0, "Clear", 0, 10, 500, 50, 0, 20, "Delhi"⟩
        ⟨(0, 100), (0, 100), (0, 2000), (0, 100), (0, 100), (0, 100)⟩)
      (Metric.trigger Metric.temp) = 0 ∧
    countTrigger
      (check_data_against_alerts ⟨0, "Clear", 101, 10, 500, 50, 0, 20, "Delhi"⟩
        ⟨(0, 100), (0, 100), (0, 2000), (0, 100), (0, 100), (0, 100)⟩)
      (Metric.trigger Metric.temp) = 1 := by
  refine ⟨by decide, ?_, ?_⟩
  · exact (c1_boundary_inclusive_of_wellformed ⟨0, "Clear", 0, 10, 500, 50, 0, 20, "Delhi"⟩
      ⟨(0, 100), (0, 100), (0, 2000), (0, 100), (0, 100), (0, 100)⟩ Metric.temp
      (by decide)).1 (Or.inl (by decide))
  · exact (c1_boundary_inclusive_of_wellformed ⟨0, "Clear", 101, 10, 500, 50, 0, 20, "Delhi"⟩
      ⟨(0, 100), (0, 100), (0, 2000), (0, 100), (0, 100), (0, 100)⟩ Metric.temp
      (by decide)).2 (Or.inr (by norm_num [Metric.value, Metric.range]))

/-- C2: one evaluation emits between 0 and 6 events; for each of the six
metrics independently it emits exactly one event with that metric's trigger
when the value is strictly below min or strictly above max and none
otherwise (no short-circuiting); and every emitted event is the event of a
violated metric, its reason built from the observed value and the violated
range. -/
theorem c2_evaluator_per_metric (weather_data : Reading) (th : ThresholdsDict) :
    (check_data_against_alerts weather_data th).length ≤ 6 ∧
    (∀ m : Metric, countTrigger (check_data_against_alerts weather_data th) m.trigger
        = if metricViolates m weather_data th then 1 else 0) ∧
    (∀ e ∈ check_data_against_alerts weather_data th,
        ∃ m : Metric, metricViolates m weather_data th ∧
          e = metricEvent m weather_data th ∧
          e.reason = alertReason m.label (m.value weather_data) (m.range th)) := by
  refine ⟨length_check_le weather_data th, countTrigger_check weather_data th, ?_⟩
  intro e he
  rcases (mem_check weather_data th e).mp he with ⟨m, hv, rfl⟩
  exact ⟨m, hv, rfl, rfl⟩

/-- C2 (witness): under the default thresholds, a reading with pressure 1013
emits the pressure alert event, and that event belongs to a violated
metric. -/
theorem c2_evaluator_per_metric_witness :
    (⟨0, "Delhi", "Pressure", alertReason "pressure" 1013 (0, 1000)⟩ : AlertEvent) ∈
      check_data_against_alerts ⟨0, "Clear", 10, 10, 1013, 50, 0, 20, "Delhi"⟩
        (Thresholds.get_thresholds thresholds) ∧
    ∃ m : Metric,
      metricViolates m ⟨0, "Clear", 10, 10, 1013, 50, 0, 20, "Delhi"⟩
        (Thresholds.get_thresholds thresholds) := by
  have he : (⟨0, "Delhi", "Pressure", alertReason "pressure" 1013 (0, 1000)⟩ : AlertEvent) ∈
      check_data_against_alerts ⟨0, "Clear", 10, 10, 1013, 50, 0, 20, "Delhi"⟩
        (Thresholds.get_thresholds thresholds) := by decide
  refine ⟨he, ?_⟩
  rcases (c2_evaluator_per_metric ⟨0, "Clear", 10, 10, 1013, 50, 0, 20, "Delhi"⟩
      (Thresholds.get_thresholds thresholds)).2.2 _ he with ⟨m, hv, _⟩
  exact ⟨m, hv⟩

/-- C3: for every store and every city with at least one Reading in the
current date's window, the aggregation query produces a summary row for that
city dated today whose average temperature is the sum over exactly that
city's readings of the day divided by their count, whose max (resp. min)
temperature is an observed temperature of that set that bounds it from above
(resp. below), and whose dominant condition is the ordinally greatest
condition label observed — an observed label that is `≥` every observed
label. -/
theorem c3_aggregate_daily_summary (now : Int) (store : List Reading) (city : String)
    (h : ∃ r ∈ store, r.city = city ∧ inTodayWindow now r.dt = true) :
    ∃ row ∈ aggregate_daily_weather now store,
      row.city = city ∧ row.date = dateOf now ∧
      row.avg_temp = ((readingsForCityToday now city store).map Reading.temp).sum /
        ((readingsForCityToday now city store).map Reading.temp).length ∧
      row.max_temp ∈ (readingsForCityToday now city store).map Reading.temp ∧
      (∀ x ∈ (readingsForCityToday now city store).map Reading.temp, x ≤ row.max_temp) ∧
      row.min_temp ∈ (readingsForCityToday now city store).map Reading.temp ∧
      (∀ x ∈ (readingsForCityToday now city store).map Reading.temp, row.min_temp ≤ x) ∧
      row.dom_condition ∈ (readingsForCityToday now city store).map Reading.main_condition ∧
      (∀ s ∈ (readingsForCityToday now city store).map Reading.main_condition,
        s ≤ row.dom_condition) := by
  obtain ⟨r, hr_mem, hr_city, hr_win⟩ := h
  have hrf : r ∈ store.filter (fun x => inTodayWindow now x.dt) :=
    List.mem_filter.mpr ⟨hr_mem, hr_win⟩
  have hkd : (city, dateOf now) ∈
      ((store.filter (fun x => inTodayWindow now x.dt)).map
        (fun x => (x.city, dateOf x.dt))).dedup := by
    apply List.mem_dedup.mpr
    exact List.mem_map.mpr ⟨r, hrf, by rw [hr_city, dateOf_eq_of_window now r.dt hr_win]⟩
  have hrows : (store.filter (fun x => inTodayWindow now x.dt)).filter
      (fun x => decide (x.city = city ∧ dateOf x.dt = dateOf now))
        = readingsForCityToday now city store := by
    rw [readingsForCityToday, List.filter_filter]
    apply List.filter_congr
    intro x _
    by_cases hw : inTodayWindow now x.dt = true
    · simp [hw, dateOf_eq_of_window now x.dt hw]
    · simp [Bool.eq_false_iff.mpr hw]
  have hr_in : r ∈ readingsForCityToday now city store := by
    rw [readingsForCityToday]
    exact List.mem_filter.mpr ⟨hr_mem, by rw [hr_win, hr_city]; simp⟩
  have htemps : (readingsForCityToday now city store).map Reading.temp ≠ [] :=
    List.ne_nil_of_mem (List.mem_map_of_mem Reading.temp hr_in)
  have hconds : (readingsForCityToday now city store).map Reading.main_condition ≠ [] :=
    List.ne_nil_of_mem (List.mem_map_of_mem Reading.main_condition hr_in)
  refine ⟨_, List.mem_map_of_mem _ hkd, ?_⟩
  show (city = city ∧ dateOf now = dateOf now ∧ _)
  refine ⟨rfl, rfl, ?_⟩
  simp only [hrows]
  exact ⟨rfl, (sqlMax_spec _ htemps).1, (sqlMax_spec _ htemps).2,
    (sqlMin_spec _ htemps).1, (sqlMin_spec _ htemps).2,
    (sqlMax_spec _ hconds).1, (sqlMax_spec _ hconds).2⟩

/-- C3 (witness): the spec's Chennai scenario — three same-day readings with
temperatures 28, 32, 25 and conditions Clear, Rain, Haze yield a summary row
whose fields satisfy the aggregation properties at those concrete inputs. -/
theorem c3_aggregate_daily_summary_witness :
    ∃ row ∈ aggregate_daily_weather 100000
      [⟨90000, "Clear", 28, 0, 0, 0, 0, 0, "Chennai"⟩,
       ⟨91000, "Rain", 32, 0, 0, 0, 0, 0, "Chennai"⟩,
       ⟨92000, "Haze", 25, 0, 0, 0, 0, 0, "Chennai"⟩],
      row.city = "Chennai" ∧ row.date = dateOf 100000 ∧
      row.avg_temp = ((readingsForCityToday 100000 "Chennai"
          [⟨90000, "Clear", 28, 0, 0, 0, 0, 0, "Chennai"⟩,
           ⟨91000, "Rain", 32, 0, 0, 0, 0, 0, "Chennai"⟩,
           ⟨92000, "Haze", 25, 0, 0, 0, 0, 0, "Chennai"⟩]).map Reading.temp).sum /
        ((readingsForCityToday 100000 "Chennai"
          [⟨90000, "Clear", 28, 0, 0, 0, 0, 0, "Chennai"⟩,
           ⟨91000, "Rain", 32, 0, 0, 0, 0, 0, "Chennai"⟩,
           ⟨92000, "Haze", 25, 0, 0, 0, 0, 0, "Chennai"⟩]).map Reading.temp).length ∧
      row.max_temp ∈ ((readingsForCityToday 100000 "Chennai"
          [⟨90000, "Clear", 28, 0, 0, 0, 0, 0, "Chennai"⟩,
           ⟨91000, "Rain", 32, 0, 0, 0, 0, 0, "Chennai"⟩,
           ⟨92000, "Haze", 25, 0, 0, 0, 0, 0, "Chennai"⟩]).map Reading.temp) ∧
      (∀ x ∈ ((readingsForCityToday 100000 "Chennai"
          [⟨90000, "Clear", 28, 0, 0, 0, 0, 0, "Chennai"⟩,
           ⟨91000, "Rain", 32, 0, 0, 0, 0, 0, "Chennai"⟩,
           ⟨92000, "Haze", 25, 0, 0, 0, 0, 0, "Chennai"⟩]).map Reading.temp),
        x ≤ row.max_temp) ∧
      row.min_temp ∈ ((readingsForCityToday 100000 "Chennai"
          [⟨90000, "Clear", 28, 0, 0, 0, 0, 0, "Chennai"⟩,
           ⟨91000, "Rain", 32, 0, 0, 0, 0, 0, "Chennai"⟩,
           ⟨92000, "Haze", 25, 0, 0, 0, 0, 0, "Chennai"⟩]).map Reading.temp) ∧
      (∀ x ∈ ((readingsForCityToday 100000 "Chennai"
          [⟨90000, "Clear", 28, 0, 0, 0, 0, 0, "Chennai"⟩,
           ⟨91000, "Rain", 32, 0, 0, 0, 0, 0, "Chennai"⟩,
           ⟨92000, "Haze", 25, 0, 0, 0, 0, 0, "Chennai"⟩]).map Reading.temp),
        row.min_temp ≤ x) ∧
      row.dom_condition ∈ ((readingsForCityToday 100000 "Chennai"
          [⟨90000, "Clear", 28, 0, 0, 0, 0, 0, "Chennai"⟩,
           ⟨91000, "Rain", 32, 0, 0, 0, 0, 0, "Chennai"⟩,
           ⟨92000, "Haze", 25, 0, 0, 0, 0, 0, "Chennai"⟩]).map Reading.main_condition) ∧
      (∀ s ∈ ((readingsForCityToday 100000 "Chennai"
          [⟨90000, "Clear", 28, 0, 0, 0, 0, 0, "Chennai"⟩,
           ⟨91000, "Rain", 32, 0, 0, 0, 0, 0, "Chennai"⟩,
           ⟨92000, "Haze", 25, 0, 0, 0, 0, 0, "Chennai"⟩]).map Reading.main_condition),
        s ≤ row.dom_condition) :=
  c3_aggregate_daily_summary 100000
    [⟨90000, "Clear", 28, 0, 0, 0, 0, 0, "Chennai"⟩,
     ⟨91000, "Rain", 32, 0, 0, 0, 0, 0, "Chennai"⟩,
     ⟨92000, "Haze", 25, 0, 0, 0, 0, 0, "Chennai"⟩] "Chennai"
    ⟨⟨90000, "Clear", 28, 0, 0, 0, 0, 0, "Chennai"⟩, by decide, rfl, by decide⟩

/-- C4: running the aggregation (query plus merge write-back) twice on the
same unchanged readings leaves the daily-summary store exactly as one run
does — the second run upserts each `(date, city)` row with identical freshly
computed values. -/
theorem c4_aggregation_idempotent (now : Int) (readings : List Reading)
    (daily : List DailyWeather) :
    aggregationRun now readings (aggregationRun now readings daily)
      = aggregationRun now readings daily :=
  foldl_merge_idem _ (aggregate_pairwise now readings) daily

/-- C5: after one append call, a pre-existing row (of any city) is in the
store if and only if its timestamp is at or after `now − 24h`; rows strictly
older than the cutoff are deleted, and the appended row is present. -/
theorem c5_retention_sweep_exact (now : Int) (row : Reading) (store : List Reading)
    (r : Reading) :
    r ∈ insert_realtime_weather now row store ↔
      (r ∈ store ∧ now - retentionSeconds ≤ r.dt) ∨ r = row :=
  mem_insert_realtime_weather now row store r

/-- C6 (counterexample): in the source the append call runs
`cleanup_old_realtime_weather()` (the sweep) at line 50, before the
`session.add`/`session.commit` of the new row at lines 63–64, so the write
does not complete before the sweep: in the call's step trace the write does
not precede the sweep. -/
theorem c6_write_before_sweep_counterexample :
    ¬ List.indexOf StoreOp.write insert_realtime_weather_trace
        < List.indexOf StoreOp.sweep insert_realtime_weather_trace := by decide

/-- C6 (amended): in every execution of the append call, the retention sweep
runs before the write of the new row (not after it); consequently the call's
own sweep can never delete the call's own row — the appended row is always
present in the store the call leaves behind. -/
theorem c6_sweep_then_write_safe :
    insert_realtime_weather_trace = [StoreOp.sweep, StoreOp.write] ∧
    ∀ (now : Int) (row : Reading) (store : List Reading),
      row ∈ insert_realtime_weather now row store := by
  refine ⟨rfl, ?_⟩
  intro now row store
  simp [insert_realtime_weather]

/-- C7 (code bug): when the persistence write of a city's reading fails, the
pipeline is not aborted — `insert_fetched_data` swallows the exception (its
own docstring says it raises), so the reading is not stored and the failure
is logged, but threshold evaluation still runs and still emits its alerts:
here a reading with pressure 1013 under the default thresholds stores
nothing, logs the failure, and nevertheless produces a nonempty alert
store. -/
theorem c7_persist_failure_still_evaluates :
    (process_city 0 (Thresholds.get_thresholds thresholds) ⟨[], [], []⟩
        ⟨Except.ok ⟨0, "Clear", 10, 10, 1013, 50, 0, 20, "Delhi"⟩, true⟩).readingStore = [] ∧
    (process_city 0 (Thresholds.get_thresholds thresholds) ⟨[], [], []⟩
        ⟨Except.ok ⟨0, "Clear", 10, 10, 1013, 50, 0, 20, "Delhi"⟩, true⟩).alertStore
      = check_data_against_alerts ⟨0, "Clear", 10, 10, 1013, 50, 0, 20, "Delhi"⟩
          (Thresholds.get_thresholds thresholds) ∧
    (process_city 0 (Thresholds.get_thresholds thresholds) ⟨[], [], []⟩
        ⟨Except.ok ⟨0, "Clear", 10, 10, 1013, 50, 0, 20, "Delhi"⟩, true⟩).alertStore ≠ [] ∧
    "Failed to insert data for Delhi" ∈
      (process_city 0 (Thresholds.get_thresholds thresholds) ⟨[], [], []⟩
        ⟨Except.ok ⟨0, "Clear", 10, 10, 1013, 50, 0, 20, "Delhi"⟩, true⟩).log := by
  exact ⟨rfl, rfl, by decide, by decide⟩

/-- C8: in one fetch cycle over any list of cities, every city whose fetch
succeeded and whose write did not fail ends the cycle with its reading in
the store (its timestamp being within the retention window) and with every
alert its evaluation emitted in the alert store, regardless of the failures
of any other city; the cycle function is total, so no exception escapes
it. -/
theorem c8_city_failure_isolation (now : Int) (th : ThresholdsDict)
    (cities : List CityEnv) (w : WorldState) (c : CityEnv) (hc : c ∈ cities)
    (r : Reading) (hfr : c.fetchResult = Except.ok r) (hp : c.persistFails = false)
    (hdt : now - retentionSeconds ≤ r.dt) :
    r ∈ (fetch_and_insert_data now th cities w).readingStore ∧
    ∀ e ∈ check_data_against_alerts r th,
      e ∈ (fetch_and_insert_data now th cities w).alertStore :=
  foldl_process_own now th cities w c hc r hfr hp hdt

/-- C8 (witness): a three-city cycle whose second city's upstream call fails
still stores the first city's reading and keeps all its alerts. -/
theorem c8_city_failure_isolation_witness :
    (⟨200000, "Clear", 10, 10, 1013, 50, 0, 20, "Delhi"⟩ : Reading) ∈
      (fetch_and_insert_data 200000 (Thresholds.get_thresholds thresholds)
        [⟨Except.ok ⟨200000, "Clear", 10, 10, 1013, 50, 0, 20, "Delhi"⟩, false⟩,
         ⟨Except.error "upstream call failed", false⟩,
         ⟨Except.ok ⟨200000, "Haze", 20, 20, 1012, 60, 0, 40, "Chennai"⟩, false⟩]
        ⟨[], [], []⟩).readingStore ∧
    ∀ e ∈ check_data_against_alerts ⟨200000, "Clear", 10, 10, 1013, 50, 0, 20, "Delhi"⟩
        (Thresholds.get_thresholds thresholds),
      e ∈ (fetch_and_insert_data 200000 (Thresholds.get_thresholds thresholds)
        [⟨Except.ok ⟨200000, "Clear", 10, 10, 1013, 50, 0, 20, "Delhi"⟩, false⟩,
         ⟨Except.error "upstream call failed", false⟩,
         ⟨Except.ok ⟨200000, "Haze", 20, 20, 1012, 60, 0, 40, "Chennai"⟩, false⟩]
        ⟨[], [], []⟩).alertStore :=
  c8_city_failure_isolation 200000 (Thresholds.get_thresholds thresholds)
    [⟨Except.ok ⟨200000, "Clear", 10, 10, 1013, 50, 0, 20, "Delhi"⟩, false⟩,
     ⟨Except.error "upstream call failed", false⟩,
     ⟨Except.ok ⟨200000, "Haze", 20, 20, 1012, 60, 0, 40, "Chennai"⟩, false⟩]
    ⟨[], [], []⟩
    ⟨Except.ok ⟨200000, "Clear", 10, 10, 1013, 50, 0, 20, "Delhi"⟩, false⟩
    (by decide) ⟨200000, "Clear", 10, 10, 1013, 50, 0, 20, "Delhi"⟩ rfl rfl (by decide)

/-- C9: a bulk threshold update followed by a read returns exactly the six
ranges just written — never a mixture of old and new ranges. -/
theorem c9_threshold_update_roundtrip (s : Thresholds)
    (temp feels_like pressure humidity rain clouds : ℚ × ℚ) :
    (s.update_thresholds temp feels_like pressure humidity rain clouds).get_thresholds
      = ⟨temp, feels_like, pressure, humidity, rain, clouds⟩ := rfl

/-- C10: before any update, reading the configuration returns the built-in
defaults `temp=[0,100]`, `feels_like=[0,100]`, `pressure=[0,1000]`,
`humidity=[0,100]`, `rain=[0,100]`, `clouds=[0,100]`; the default pressure
max 1000 lies below typical sea-level pressure (≈1013 hPa), so under the
defaults every reading with pressure above 1000 emits exactly one pressure
alert. -/
theorem c10_default_thresholds :
    Thresholds.get_thresholds thresholds
      = ⟨(0, 100), (0, 100), (0, 1000), (0, 100), (0, 100), (0, 100)⟩ ∧
    (1000 : ℚ) < 1013 ∧
    ∀ r : Reading, 1000 < r.pressure →
      countTrigger (check_data_against_alerts r (Thresholds.get_thresholds thresholds))
        (Metric.trigger Metric.pressure) = 1 := by
  refine ⟨rfl, by norm_num, ?_⟩
  intro r hr
  rw [countTrigger_check]
  rw [if_pos (show metricViolates Metric.pressure r (Thresholds.get_thresholds thresholds) by
    unfold metricViolates
    exact Or.inr (by
      simp [Metric.value, Metric.range, Thresholds.get_thresholds, thresholds]
      linarith))]

/-- C10 (witness): a reading at the typical sea-level pressure 1013 emits
exactly one pressure alert under the default thresholds. -/
theorem c10_default_thresholds_witness :
    (1000 : ℚ) < 1013 ∧
    countTrigger
      (check_data_against_alerts ⟨0, "Clear", 10, 10, 1013, 50, 0, 20, "Delhi"⟩
        (Thresholds.get_thresholds thresholds))
      (Metric.trigger Metric.pressure) = 1 :=
  ⟨by norm_num,
    c10_default_thresholds.2.2 ⟨0, "Clear", 10, 10, 1013, 50, 0, 20, "Delhi"⟩ (by norm_num)⟩
